import Mathlib

/-!
# Verification of the client-side real-time session protocol

Shallow embedding of the chat dashboard's WebSocket session layer
(`src/ui/src/lib/websocket.ts` and `src/ui/src/pages/Dashboard.tsx`)
together with proofs about the behaviour of its handlers.

Modelling conventions:
* JS strings that are checked for truthiness before use are modelled as
  `Option String` (`none` = absent/empty/falsy).
* Wall-clock ids and timestamps (`Date.now()` / `Math.random()` message ids)
  are used only as React render keys by the source and are never read by any
  logic, so committed messages are modelled by their `content`, `type` and
  `agent` fields.
* The runtime is single-threaded and event-driven; handlers are modelled as
  pure state-transition functions, and React `useEffect` closures are made
  explicit: a handler registered by an effect captures the `conversationId`
  render value current when the effect ran, so that captured value is passed
  to the handler model as a separate `cc` argument, distinct from the live
  state field.
-/

namespace SessionProtocol

/-! ## WebSocket service (`src/ui/src/lib/websocket.ts`) -/

/-- Connection status, `WebSocketConnectionStatus` in the source. -/
inductive WSStatus
  | disconnected
  | connecting
  | connected
  | error
deriving DecidableEq, Repr

/-- Observable events emitted by the service through `emit`.  Only the two
event families the claims are about are tracked: `status` transitions and
`auth_error` emissions. -/
inductive WSEvent
  | statusEv (st : WSStatus)
  | authError (msg : String)
deriving DecidableEq, Repr

/-- The mutable fields of `class WebSocketService`.  `reconnectTimer` holds
the delay (in ms) of the pending reconnect timer, `none` when no timer is
armed; the physical `ws` handle itself carries no state the claims need. -/
structure WSService where
  userId : String
  username : Option String
  conversationId : Option String
  token : Option String
  status : WSStatus
  reconnectAttempts : Nat
  maxReconnectAttempts : Nat
  reconnectTimer : Option Nat
deriving DecidableEq, Repr

/-- `new WebSocketService(userId, username, conversationId, token)`:
field initialisers from the class body plus the constructor. -/
def mkWSService (userId : String) (username conversationId token : Option String) :
    WSService :=
  { userId := userId
    username := username
    conversationId := conversationId
    token := token
    status := .disconnected
    reconnectAttempts := 0
    maxReconnectAttempts := 5
    reconnectTimer := none }

/-- `scheduleReconnect` (websocket.ts lines 319-336): clear any pending
timer, increment the attempt counter, then arm a timer with delay
`Math.min(1000 * Math.pow(2, this.reconnectAttempts), 30000)` computed from
the already-incremented counter. -/
def scheduleReconnect (s : WSService) : WSService :=
  let attempts := s.reconnectAttempts + 1
  let delay := min (1000 * 2 ^ attempts) 30000
  { s with reconnectAttempts := attempts, reconnectTimer := some delay }

/-- `ws.onclose` (websocket.ts lines 153-193).  Returns the service state
after the handler together with the list of events emitted, in order:
1. the close-code `switch` emits `auth_error` for codes 4001 and 4003;
2. `setStatus('disconnected')` emits a `status` event;
3. codes 1008/1011/4001/4003 emit a second `auth_error` and return without
   scheduling a reconnect;
4. otherwise any non-1000 close schedules a reconnect while the attempt
   counter is below `maxReconnectAttempts`. -/
def handleClose (s : WSService) (code : Nat) : WSService × List WSEvent :=
  let evs : List WSEvent :=
    if code = 4001 then [.authError "JWT令牌无效或已过期"]
    else if code = 4003 then [.authError "用户ID与令牌不匹配"]
    else []
  let s := { s with status := .disconnected }
  let evs := evs ++ [.statusEv .disconnected]
  if code = 1008 ∨ code = 1011 ∨ code = 4001 ∨ code = 4003 then
    (s, evs ++ [.authError "WebSocket认证失败"])
  else if code ≠ 1000 ∧ s.reconnectAttempts < s.maxReconnectAttempts then
    (scheduleReconnect s, evs)
  else
    (s, evs)

/-- `ws.onopen` (websocket.ts lines 136-141): `setStatus('connected')` and
reset of the attempt counter to zero. -/
def handleOpen (s : WSService) : WSService × List WSEvent :=
  ({ s with status := .connected, reconnectAttempts := 0 }, [.statusEv .connected])

/-- Number of `auth_error` emissions in an event trace. -/
def countAuthErrors (evs : List WSEvent) : Nat :=
  (evs.filter fun e => match e with | .authError _ => true | _ => false).length

/-- One retryable (non-clean, non-terminal) close; code 1006 is the usual
abnormal-closure code and stands for any retryable code. -/
def closeRetry (s : WSService) : WSService :=
  (handleClose s 1006).1

/-- `n` consecutive retryable closes with no intervening open. -/
def closeRetryN : Nat → WSService → WSService
  | 0, s => s
  | n + 1, s => closeRetryN n (closeRetry s)

/-- `createWebSocketService` (websocket.ts lines 370-387) acting on the
module-level singleton `wsService`.  Takes the current singleton and the call
arguments, returns the new singleton and the instance handed to the caller.
When a service for the same `userId` already exists it is returned as is:
none of `username`, `conversationId`, `token` is written.  A service for a
different user is discarded (after `disconnect()`) and a fresh one built. -/
def createWebSocketService (g : Option WSService) (userId : String)
    (username conversationId token : Option String) :
    Option WSService × WSService :=
  match g with
  | some s =>
    if s.userId = userId then
      (some s, s)
    else
      let fresh := mkWSService userId username conversationId token
      (some fresh, fresh)
  | none =>
    let fresh := mkWSService userId username conversationId token
    (some fresh, fresh)

/-- The `conversation_id` query parameter of the connect URL
(websocket.ts lines 113-115): present iff `_conversationId` is truthy. -/
def connectUrlConversationParam (s : WSService) : Option String :=
  s.conversationId

/-- Outbound `chat` frame as built by `sendChatMessage`
(websocket.ts lines 231-250): the `conversation_id` field is attached iff
`_conversationId` is truthy.  The wall-clock `timestamp` field is omitted. -/
structure OutMessage where
  mtype : String
  content : String
  conversation_id : Option String
deriving DecidableEq, Repr

/-- `sendChatMessage(content)` message construction. -/
def buildChatMessage (conversationId : Option String) (content : String) :
    OutMessage :=
  { mtype := "chat", content := content, conversation_id := conversationId }

/-! ## Dashboard state and stream-accumulator handlers
(`src/ui/src/pages/Dashboard.tsx`) -/

/-- `Message.type` from `src/ui/src/lib/types.ts`. -/
inductive MsgType
  | user
  | ai
  | system
deriving DecidableEq, Repr

/-- A committed message.  The source's `id` (`Date.now()`/`Math.random()`
freshness token used only as a React key) and `timestamp` (wall clock, read
by no handler logic) are omitted. -/
structure Msg where
  content : String
  mtype : MsgType
  agent : String
deriving DecidableEq, Repr

/-- An entry of a response frame's `messages` array: `{content, agent}`. -/
structure RespMsg where
  content : String
  agent : String
deriving DecidableEq, Repr

/-- The fields of a finalized chat response read by `handleChatResponse`.
`events`, `agents`, `guardrails` and `context` are opaque payloads that the
handlers only store, so they are modelled as opaque values (`String`). -/
structure ChatResp where
  conversation_id : Option String
  current_agent : Option String
  is_error : Bool
  error_message : String
  messages : Option (List RespMsg)
  events : Option (List String)
  agents : Option (List String)
  guardrails : Option (List String)
  context : Option String
deriving DecidableEq, Repr

/-- The fields of a streaming frame's `content` read by
`handleStreamingResponse`, extending `ChatResp` with the streaming-only
fields `type` (`ctype`), `is_finished`, `raw_response` (empty string =
falsy/absent) and `final_response`. -/
structure StreamContent extends ChatResp where
  ctype : Option String
  is_finished : Bool
  raw_response : String
  final_response : Option ChatResp
deriving DecidableEq, Repr

/-- The Dashboard's React state relevant to the claims, plus the two pieces
of state the handlers write through the service and the browser store:
`wsConvId` mirrors `WebSocketService._conversationId` and `storage` mirrors
`localStorage['current_conversation_id']`. -/
structure DashState where
  messages : List Msg
  events : List String
  agents : List String
  currentAgent : String
  guardrails : List String
  context : Option String
  conversationId : Option String
  isLoading : Bool
  streamingResponse : String
  conversationListKey : Nat
  isRestoringSession : Bool
  wsConvId : Option String
  storage : Option String
deriving DecidableEq, Repr

/-- The system-error message appended by the `is_error` branches
(Dashboard.tsx lines 280-287 and 371-377): content
`` `系统异常: ${error_message}` ``, type `'ai'`, agent
`current_agent || 'System'`. -/
def errMsg (r : ChatResp) : Msg :=
  { content := "系统异常: " ++ r.error_message
    mtype := .ai
    agent := r.current_agent.getD "System" }

/-- Conversion of one `response.messages` entry (Dashboard.tsx lines
388-394): type `'user'` iff `msg.agent === 'user'`, else `'ai'`. -/
def convFinalMsg (m : RespMsg) : Msg :=
  { content := m.content
    mtype := if m.agent = "user" then .user else .ai
    agent := m.agent }

/-- The `setMessages` merge of `handleChatResponse` (Dashboard.tsx lines
399-413): if the response contains AI-typed messages and the last committed
message is user-typed, append only the AI-typed ones; otherwise replace the
whole list with the mapped response messages. -/
def mergeNewMessages (prev : List Msg) (entries : List RespMsg) : List Msg :=
  let newMessages := entries.map convFinalMsg
  let aiMessages := newMessages.filter fun m => m.mtype = MsgType.ai
  match prev.getLast? with
  | some last =>
    if 0 < aiMessages.length ∧ last.mtype = MsgType.user then
      prev ++ aiMessages
    else
      newMessages
  | none => newMessages

/-- The conversation-id adoption block shared by both handlers
(Dashboard.tsx lines 302-314 and 347-359): when the frame carries a
`conversation_id` and the handler's captured `conversationId` render value
`cc` is null, set the React state, the service's `_conversationId`, the
persisted id, and bump the conversation-list key. -/
def adoptConversationId (cc : Option String) (cid : Option String)
    (s : DashState) : DashState :=
  if cid.isSome ∧ cc = none then
    { s with conversationId := cid
             wsConvId := cid
             storage := cid
             conversationListKey := s.conversationListKey + 1 }
  else s

/-- The `if (….current_agent) setCurrentAgent(….current_agent)` update
appearing in both handlers. -/
def updateCurrentAgent (ca : Option String) (s : DashState) : DashState :=
  match ca with
  | some a => { s with currentAgent := a }
  | none => s

/-- The `if (response.messages && Array.isArray(response.messages))`
commit block of `handleChatResponse` (Dashboard.tsx lines 387-416). -/
def commitRespMessages (ms : Option (List RespMsg)) (s : DashState) :
    DashState :=
  match ms with
  | some entries => { s with messages := mergeNewMessages s.messages entries }
  | none => s

/-- The four trailing side-channel stores shared by both handlers
(`setEvents`, `setAgents`, `setGuardrails`, `setContext`), each guarded by
presence of the corresponding field. -/
def storeSideChannel (events agents guardrails : Option (List String))
    (context : Option String) (s : DashState) : DashState :=
  let s := match events with
    | some es => { s with events := es }
    | none => s
  let s := match agents with
    | some as_ => { s with agents := as_ }
    | none => s
  let s := match guardrails with
    | some gs => { s with guardrails := gs }
    | none => s
  match context with
  | some ctx => { s with context := some ctx }
  | none => s

/-- `handleChatResponse` (Dashboard.tsx lines 343-440), in source order:
conversation-id adoption, current-agent update, then either the error
branch (append error message, clear pending) or the message commit followed
by the side-channel stores.  `cc` is the `conversationId` render value
captured by the closure when the handler was registered (the effect has
deps `[user, token]`, so it is not re-captured on later identifier
changes). -/
def handleChatResponse (cc : Option String) (r : ChatResp) (s : DashState) :
    DashState :=
  let s := adoptConversationId cc r.conversation_id s
  let s := updateCurrentAgent r.current_agent s
  if r.is_error then
    { s with messages := s.messages ++ [errMsg r]
             isLoading := false
             streamingResponse := "" }
  else
    storeSideChannel r.events r.agents r.guardrails r.context
      (commitRespMessages r.messages s)

/-- `handleStreamingResponse` (Dashboard.tsx lines 243-340).
Terminal branch (`content.type === 'completion' || content.is_finished`):
clear the streaming text and loading flag, update the current agent, then
hand `final_response` (or, when absent, the content itself) to
`handleChatResponse`.  Non-terminal branch: the `is_error` check comes
first and returns after appending the error message and clearing;
otherwise the cumulative `raw_response` replaces the streaming text, the
conversation id may be adopted, the current agent is updated and the
side-channel fields are stored. -/
def handleStreamingResponse (cc : Option String) (c : StreamContent)
    (s : DashState) : DashState :=
  if c.ctype = some "completion" ∨ c.is_finished then
    handleChatResponse cc (c.final_response.getD c.toChatResp)
      (updateCurrentAgent c.current_agent
        { s with streamingResponse := "", isLoading := false })
  else if c.is_error then
    { s with messages := s.messages ++ [errMsg c.toChatResp]
             streamingResponse := ""
             isLoading := false }
  else
    storeSideChannel c.events c.agents c.guardrails c.context
      (updateCurrentAgent c.current_agent
        (adoptConversationId cc c.conversation_id
          (if c.raw_response ≠ "" then
            { s with streamingResponse := c.raw_response }
          else s)))

/-- Processing a sequence of streaming frames in arrival order (the runtime
is single-threaded, so each handler runs to completion before the next). -/
def processFrames (cc : Option String) (frames : List StreamContent)
    (s : DashState) : DashState :=
  frames.foldl (fun st c => handleStreamingResponse cc c st) s

/-- JavaScript `String.prototype.trim()`: strip leading and trailing
whitespace. -/
def jsTrim (s : String) : String :=
  String.mk
    (((s.data.dropWhile Char.isWhitespace).reverse.dropWhile
        Char.isWhitespace).reverse)

/-- `handleSendMessage` (Dashboard.tsx lines 579-613): rejected when the
trimmed text is empty or a response is already pending; otherwise set the
loading flag, clear the streaming text, append the user message, and send
one `chat` frame built from the service's current conversation id.  No
timer of any kind is armed by this path. -/
def handleSendMessage (content : String) (s : DashState) :
    DashState × Option OutMessage :=
  if jsTrim content = "" ∨ s.isLoading then
    (s, none)
  else
    let userMsg : Msg := { content := jsTrim content, mtype := .user, agent := "user" }
    let s := { s with isLoading := true
                      streamingResponse := ""
                      messages := s.messages ++ [userMsg] }
    (s, some (buildChatMessage s.wsConvId (jsTrim content)))

/-- Passage of `ms` milliseconds with no inbound frames.  `Dashboard.tsx`
arms no timer anywhere (there is no `setTimeout` in `handleSendMessage` or
in any handler it reaches), and with no inbound frames no handler runs, so
the state is unchanged by time alone.  The only 30-second timeout in the
client lives in the deprecated `WebSocketAPI.sendMessage` path of
`src/ui/src/lib/api.ts` (see `wsApiSendMessageTimerDelay`), which is not
reachable from the Dashboard submit path. -/
def elapseWithoutFrames (_ms : Nat) (s : DashState) : DashState :=
  s

/-- The timer delay armed by the deprecated `WebSocketAPI.sendMessage`
(api.ts lines 127-131); on expiry it rejects that path's response promise
locally and sends nothing to the remote side. -/
def wsApiSendMessageTimerDelay : Nat := 30000

/-- `handleSelectConversation` with id `'new'` (Dashboard.tsx lines
495-515): clears messages, side-channel state, the loading flag, the
streaming text, the React conversation id, the service's conversation id,
and the persisted id.  `conversationListKey` is not touched. -/
def handleSelectConversationNew (s : DashState) : DashState :=
  { s with conversationId := none
           messages := []
           events := []
           guardrails := []
           context := none
           currentAgent := ""
           isLoading := false
           streamingResponse := ""
           wsConvId := none
           storage := none }

/-! ## Session restoration on mount (`Dashboard.tsx` lines 82-148 and
151-486, `websocket.ts` lines 107-123) -/

/-- One record of the REST history response
(`messageAPI.getMessages`): `{id, content, sender_type, sender_id,
created_at}`.  The numeric `id` is only stringified into a React key and is
omitted; `created_at` is the creation time in ms. -/
structure HistEntry where
  content : String
  sender_type : String
  sender_id : Option String
  created_at : Nat
deriving DecidableEq, Repr

/-- Conversion of a history record (Dashboard.tsx lines 118-124):
`sender_type === 'human'` gives a user message with agent `'user'`, anything
else an assistant message with agent `sender_id || 'ai'`. -/
def convertHistEntry (e : HistEntry) : Msg :=
  { content := e.content
    mtype := if e.sender_type = "human" then .user else .ai
    agent := if e.sender_type = "human" then "user" else e.sender_id.getD "ai" }

/-- Stable ascending insertion by `created_at`. -/
def insertByCreated (e : HistEntry) : List HistEntry → List HistEntry
  | [] => [e]
  | x :: xs => if x.created_at ≤ e.created_at then x :: insertByCreated e xs
               else e :: x :: xs

/-- The ascending-by-creation-time sort applied to fetched history
(Dashboard.tsx line 127), modelled as a stable insertion sort. -/
def sortByCreated : List HistEntry → List HistEntry
  | [] => []
  | e :: es => insertByCreated e (sortByCreated es)

/-- The state updates performed once the history fetch of
`loadConversationHistory` resolves (Dashboard.tsx lines 116-147).  `res` is
`some entries` on success and `none` on a failed/unsuccessful fetch; failure
clears the persisted identifier and the active identifier.  The `finally`
block clears the loading and restoring flags in both cases. -/
def applyHistoryResult (res : Option (List HistEntry)) (s : DashState) :
    DashState :=
  match res with
  | some entries =>
    { s with messages := (sortByCreated entries).map convertHistEntry
             isLoading := false
             isRestoringSession := false }
  | none =>
    { s with storage := none
             conversationId := none
             isLoading := false
             isRestoringSession := false }

/-- The Dashboard state at the first render: every `useState` initial
value, with `storage` holding whatever the persistent store contains. -/
def initialDashState (storedId : Option String) : DashState :=
  { messages := []
    events := []
    agents := []
    currentAgent := ""
    guardrails := []
    context := none
    conversationId := none
    isLoading := false
    streamingResponse := ""
    conversationListKey := 0
    isRestoringSession := false
    wsConvId := none
    storage := storedId }

/-- The observable outcome of a cold Dashboard mount. -/
structure MountOut where
  dash : DashState
  ws : WSService
  globalService : Option WSService
  historyFetches : List String
  connectConvParam : Option String
  closureConv : Option String
deriving Repr

/-- Cold mount of the Dashboard with `storedId` persisted and no existing
service.  Both effects run after the first render (whose `conversationId`
render value is `null`), in declaration order:

* restore effect (lines 82-102): set `isRestoringSession`, read the store;
  if an id was saved, set it into React state and start exactly one history
  fetch for it (`loadConversationHistory`, which first sets the loading
  flag);
* WebSocket effect (lines 151-486): `createWebSocketService(userId,
  username, undefined, token)`; the guard `if (conversationId)` reads this
  render's `conversationId` value, which is still `null` (the restore
  effect's `setConversationId` only takes effect on the next render and the
  effect's deps are `[user, token]`), so `setConversationId` is not called
  on the service; handlers are registered capturing that same `null`; then
  `connect()` builds the URL from the service's unset `_conversationId`.

The asynchronous history fetch resolves afterwards (`histResult`). -/
def dashboardMount (storedId : Option String)
    (histResult : Option (List HistEntry)) (userId username token : String) :
    MountOut :=
  let s0 := initialDashState storedId
  let restored :=
    match storedId with
    | some x =>
      ({ s0 with isRestoringSession := true
                 conversationId := some x
                 isLoading := true }, [x])
    | none => ({ s0 with isRestoringSession := false }, ([] : List String))
  let s1 := restored.1
  let fetches := restored.2
  let created := createWebSocketService none userId (some username) none (some token)
  let ws := created.2
  let closureConv : Option String := none
  let urlConv := connectUrlConversationParam ws
  let s2 := { s1 with wsConvId := ws.conversationId }
  let s3 :=
    match storedId with
    | some _ => applyHistoryResult histResult s2
    | none => s2
  { dash := s3
    ws := ws
    globalService := created.1
    historyFetches := fetches
    connectConvParam := urlConv
    closureConv := closureConv }

/-! ## Concrete frames and states used as test vectors -/

/-- A benign partial frame: in progress, no error, cumulative text. -/
def helloPartialFrame : StreamContent :=
  { conversation_id := none
    current_agent := some "A"
    is_error := false
    error_message := ""
    messages := none
    events := none
    agents := none
    guardrails := none
    context := none
    ctype := none
    is_finished := false
    raw_response := "Hel"
    final_response := none }

/-- A terminal frame carrying one final assistant message. -/
def helloTerminalFrame : StreamContent :=
  { conversation_id := some "c1"
    current_agent := some "A"
    is_error := false
    error_message := ""
    messages := some [{ content := "Hello!", agent := "A" }]
    events := none
    agents := none
    guardrails := none
    context := none
    ctype := none
    is_finished := true
    raw_response := "Hello!"
    final_response := none }

/-- A terminal frame whose `messages` echoes the user's submission and adds
the assistant answer — the shape of §8's scenario response. -/
def echoTerminalFrame : StreamContent :=
  { helloTerminalFrame with
      messages := some [{ content := "hi", agent := "user" },
                        { content := "Hello!", agent := "A" }] }

/-- A partial frame arriving after the exchange was finalized. -/
def lateFramePartial : StreamContent :=
  { conversation_id := none
    current_agent := none
    is_error := false
    error_message := ""
    messages := none
    events := none
    agents := none
    guardrails := none
    context := none
    ctype := none
    is_finished := false
    raw_response := "abc"
    final_response := none }

/-- An error frame that is also marked finished and carries a conversation
id and an agent. -/
def errorTerminalFrame : StreamContent :=
  { conversation_id := some "c1"
    current_agent := some "A"
    is_error := true
    error_message := "boom"
    messages := none
    events := none
    agents := none
    guardrails := none
    context := none
    ctype := none
    is_finished := true
    raw_response := ""
    final_response := none }

/-- An error frame delivered mid-stream (not finished). -/
def errorPartialFrame : StreamContent :=
  { errorTerminalFrame with is_finished := false }

/-- A partial frame carrying a fresh conversation id. -/
def overwriteFrame : StreamContent :=
  { conversation_id := some "c2"
    current_agent := none
    is_error := false
    error_message := ""
    messages := none
    events := none
    agents := none
    guardrails := none
    context := none
    ctype := none
    is_finished := false
    raw_response := ""
    final_response := none }

/-- A state in which the user's submission `"hi"` is already committed. -/
def userHiState : DashState :=
  { initialDashState none with
      messages := [{ content := "hi", mtype := .user, agent := "user" }] }

/-- A state in which conversation id `"c1"` is already known. -/
def knownIdState : DashState :=
  { initialDashState none with conversationId := some "c1" }

/-- A chat response with every optional field absent. -/
def trivialChatResp : ChatResp :=
  { conversation_id := none
    current_agent := none
    is_error := false
    error_message := ""
    messages := none
    events := none
    agents := none
    guardrails := none
    context := none }

/-! ## Projection lemmas for the handler building blocks -/

@[simp]
lemma adoptConversationId_messages (cc cid : Option String) (s : DashState) :
    (adoptConversationId cc cid s).messages = s.messages := by
  unfold adoptConversationId; split <;> rfl

@[simp]
lemma adoptConversationId_isLoading (cc cid : Option String) (s : DashState) :
    (adoptConversationId cc cid s).isLoading = s.isLoading := by
  unfold adoptConversationId; split <;> rfl

@[simp]
lemma adoptConversationId_streamingResponse (cc cid : Option String)
    (s : DashState) :
    (adoptConversationId cc cid s).streamingResponse = s.streamingResponse := by
  unfold adoptConversationId; split <;> rfl

@[simp]
lemma adoptConversationId_cc_some (x : String) (cid : Option String)
    (s : DashState) :
    adoptConversationId (some x) cid s = s := by
  unfold adoptConversationId
  simp

@[simp]
lemma updateCurrentAgent_messages (ca : Option String) (s : DashState) :
    (updateCurrentAgent ca s).messages = s.messages := by
  cases ca <;> rfl

@[simp]
lemma updateCurrentAgent_conversationId (ca : Option String) (s : DashState) :
    (updateCurrentAgent ca s).conversationId = s.conversationId := by
  cases ca <;> rfl

@[simp]
lemma updateCurrentAgent_isLoading (ca : Option String) (s : DashState) :
    (updateCurrentAgent ca s).isLoading = s.isLoading := by
  cases ca <;> rfl

@[simp]
lemma updateCurrentAgent_streamingResponse (ca : Option String)
    (s : DashState) :
    (updateCurrentAgent ca s).streamingResponse = s.streamingResponse := by
  cases ca <;> rfl

@[simp]
lemma commitRespMessages_conversationId (ms : Option (List RespMsg))
    (s : DashState) :
    (commitRespMessages ms s).conversationId = s.conversationId := by
  cases ms <;> rfl

@[simp]
lemma commitRespMessages_messages (ms : Option (List RespMsg))
    (s : DashState) :
    (commitRespMessages ms s).messages =
      (match ms with
       | some entries => mergeNewMessages s.messages entries
       | none => s.messages) := by
  cases ms <;> rfl

@[simp]
lemma storeSideChannel_messages (ev ag gu : Option (List String))
    (cx : Option String) (s : DashState) :
    (storeSideChannel ev ag gu cx s).messages = s.messages := by
  unfold storeSideChannel
  cases ev <;> cases ag <;> cases gu <;> cases cx <;> rfl

@[simp]
lemma storeSideChannel_conversationId (ev ag gu : Option (List String))
    (cx : Option String) (s : DashState) :
    (storeSideChannel ev ag gu cx s).conversationId = s.conversationId := by
  unfold storeSideChannel
  cases ev <;> cases ag <;> cases gu <;> cases cx <;> rfl

@[simp]
lemma storeSideChannel_isLoading (ev ag gu : Option (List String))
    (cx : Option String) (s : DashState) :
    (storeSideChannel ev ag gu cx s).isLoading = s.isLoading := by
  unfold storeSideChannel
  cases ev <;> cases ag <;> cases gu <;> cases cx <;> rfl

@[simp]
lemma storeSideChannel_streamingResponse (ev ag gu : Option (List String))
    (cx : Option String) (s : DashState) :
    (storeSideChannel ev ag gu cx s).streamingResponse =
      s.streamingResponse := by
  unfold storeSideChannel
  cases ev <;> cases ag <;> cases gu <;> cases cx <;> rfl

/-- The committed-message list after `handleChatResponse`: the error branch
appends exactly the system-error message; otherwise `messages` entries are
merged in and everything else leaves the list alone. -/
lemma handleChatResponse_messages (cc : Option String) (r : ChatResp)
    (s : DashState) :
    (handleChatResponse cc r s).messages =
      (if r.is_error then s.messages ++ [errMsg r]
       else match r.messages with
         | some entries => mergeNewMessages s.messages entries
         | none => s.messages) := by
  unfold handleChatResponse
  split
  · simp
  · simp

/-- A genuine partial frame (not finished, not a completion marker, not an
error) never changes the committed-message list. -/
lemma partial_preserves_messages (cc : Option String) (c : StreamContent)
    (s : DashState) (hfin : c.is_finished = false)
    (hty : c.ctype ≠ some "completion") (herr : c.is_error = false) :
    (handleStreamingResponse cc c s).messages = s.messages := by
  unfold handleStreamingResponse
  rw [if_neg (by simp [hfin, hty]), if_neg (by simp [herr])]
  simp
  split <;> rfl

/-- With a non-null captured identifier the adoption guard is dead code:
`handleChatResponse` preserves the active conversation identifier. -/
lemma handleChatResponse_conv_of_cc_some (x : String) (r : ChatResp)
    (s : DashState) :
    (handleChatResponse (some x) r s).conversationId = s.conversationId := by
  unfold handleChatResponse
  split
  · simp
  · simp

/-- With a non-null captured identifier, `handleStreamingResponse` also
preserves the active conversation identifier, on every branch. -/
lemma handleStreamingResponse_conv_of_cc_some (x : String)
    (c : StreamContent) (s : DashState) :
    (handleStreamingResponse (some x) c s).conversationId =
      s.conversationId := by
  unfold handleStreamingResponse
  split
  · rw [handleChatResponse_conv_of_cc_some]
    simp
  · split
    · rfl
    · simp
      split <;> rfl

/-- When the captured identifier is null and the frame carries an id, the
adoption block overwrites the live identifier unconditionally. -/
lemma adoptConversationId_none_some (v : String) (s : DashState) :
    (adoptConversationId none (some v) s).conversationId = some v := by
  simp [adoptConversationId]

/-- The terminal branch commits the messages of the response object handed
to `handleChatResponse` (that is `final_response` when present, otherwise
the frame itself) through the `mergeNewMessages` merge. -/
lemma terminal_commit_messages (cc : Option String) (t : StreamContent)
    (s : DashState) (entries : List RespMsg)
    (ht : t.ctype = some "completion" ∨ t.is_finished = true)
    (he : (t.final_response.getD t.toChatResp).is_error = false)
    (hm : (t.final_response.getD t.toChatResp).messages = some entries) :
    (handleStreamingResponse cc t s).messages =
      mergeNewMessages s.messages entries := by
  unfold handleStreamingResponse
  rw [if_pos (by rcases ht with h | h <;> simp [h])]
  rw [handleChatResponse_messages]
  simp [he, hm]

/-! ## C2 — terminal close codes: no retry, auth_error emission count -/

/-- C2 (counterexample): for close code 4001 the `auth_error` event is
emitted twice for the one close — once by the close-code `switch` and once
by the terminal-code guard — refuting "emits the authentication-failed
event exactly once". -/
theorem auth_error_double_emit_on_4001 :
    countAuthErrors (handleClose (mkWSService "u1" none none none) 4001).2 = 2 ∧
    countAuthErrors (handleClose (mkWSService "u1" none none none) 4001).2 ≠ 1 := by
  constructor <;> decide

/-- C2 (amended): for every close code in {1008, 1011, 4001, 4003} the
onclose handling schedules no reconnect (the timer and the attempt counter
are untouched), and emits `auth_error` twice for 4001/4003 (once from the
close-code switch, once from the terminal-code guard) and exactly once for
1008/1011. -/
theorem terminal_close_no_retry_and_auth_error_count (s : WSService)
    (code : Nat) (h : code = 1008 ∨ code = 1011 ∨ code = 4001 ∨ code = 4003) :
    (handleClose s code).1.reconnectTimer = s.reconnectTimer ∧
    (handleClose s code).1.reconnectAttempts = s.reconnectAttempts ∧
    countAuthErrors (handleClose s code).2 =
      (if code = 4001 ∨ code = 4003 then 2 else 1) := by
  rcases h with h | h | h | h <;> subst h <;>
    simp [handleClose, countAuthErrors]

/-- C2 (witness): the amended theorem applied at close code 1008 on a
concrete service. -/
theorem terminal_close_no_retry_witness :
    (handleClose (mkWSService "u1" none none none) 1008).1.reconnectTimer =
      (mkWSService "u1" none none none).reconnectTimer ∧
    (handleClose (mkWSService "u1" none none none) 1008).1.reconnectAttempts =
      (mkWSService "u1" none none none).reconnectAttempts ∧
    countAuthErrors (handleClose (mkWSService "u1" none none none) 1008).2 =
      (if (1008 : Nat) = 4001 ∨ (1008 : Nat) = 4003 then 2 else 1) :=
  terminal_close_no_retry_and_auth_error_count
    (mkWSService "u1" none none none) 1008 (Or.inl rfl)

/-! ## C3 — reconnect backoff growth and reset -/

/-- C3 (counterexample): the very first retry after a successful open
(N = 0) is scheduled with delay 2000 ms, not `min(base · 2^0, cap) =
1000` ms — `scheduleReconnect` increments the attempt counter before
computing the delay. -/
theorem backoff_first_delay_not_base :
    (closeRetryN 1 (mkWSService "u1" none none none)).reconnectTimer =
      some 2000 ∧
    (closeRetryN 1 (mkWSService "u1" none none none)).reconnectTimer ≠
      some (min (1000 * 2 ^ 0) 30000) := by
  constructor <;> decide

/-- C3 (amended): counting retries from zero after the last successful
open, the Nth scheduled retry exists only for N = 0..4 (the hard ceiling
`maxReconnectAttempts = 5`) and its delay is `min(base · 2^(N+1), cap)`
with base = 1000 ms and cap = 30000 ms; a sixth consecutive retryable close
schedules nothing; and the attempt counter is reset to zero on every
successful open. -/
theorem backoff_delay_and_reset (n : Nat) (hn : n < 5) :
    (closeRetryN (n + 1) (mkWSService "u1" none none none)).reconnectTimer =
      some (min (1000 * 2 ^ (n + 1)) 30000) ∧
    (closeRetry (closeRetryN 5 (mkWSService "u1" none none none))).reconnectTimer
      = (closeRetryN 5 (mkWSService "u1" none none none)).reconnectTimer ∧
    ∀ s : WSService, (handleOpen s).1.reconnectAttempts = 0 := by
  refine ⟨?_, by decide, fun s => rfl⟩
  interval_cases n <;> decide

/-- C3 (witness): the amended theorem applied at N = 1. -/
theorem backoff_delay_witness :
    (closeRetryN 2 (mkWSService "u1" none none none)).reconnectTimer =
      some (min (1000 * 2 ^ 2) 30000) ∧
    (closeRetry (closeRetryN 5 (mkWSService "u1" none none none))).reconnectTimer
      = (closeRetryN 5 (mkWSService "u1" none none none)).reconnectTimer ∧
    ∀ s : WSService, (handleOpen s).1.reconnectAttempts = 0 :=
  backoff_delay_and_reset 1 (by decide)

/-! ## C10 — singleton service reuse ignores fresh arguments -/

/-- C10 (confirmed): when a service already exists for the same `userId`,
`createWebSocketService` returns that instance unchanged — the `username`,
`conversationId` and `token` arguments of the new call are ignored, so the
returned service still holds the originally supplied token. -/
theorem createWebSocketService_reuses_existing (g : Option WSService)
    (s : WSService) (uid : String) (un cid tok : Option String)
    (h1 : g = some s) (h2 : s.userId = uid) :
    createWebSocketService g uid un cid tok = (some s, s) ∧
    (createWebSocketService g uid un cid tok).2.token = s.token := by
  subst h1
  constructor <;> simp [createWebSocketService, h2]

/-- C10 (witness): a caller supplying a refreshed token after
re-authentication still receives the service holding the original token. -/
theorem createWebSocketService_reuse_witness :
    createWebSocketService
        (some (mkWSService "u1" (some "alice") none (some "tok-old")))
        "u1" (some "bob") (some "c9") (some "tok-new") =
      (some (mkWSService "u1" (some "alice") none (some "tok-old")),
        mkWSService "u1" (some "alice") none (some "tok-old")) ∧
    (createWebSocketService
        (some (mkWSService "u1" (some "alice") none (some "tok-old")))
        "u1" (some "bob") (some "c9") (some "tok-new")).2.token =
      some "tok-old" :=
  createWebSocketService_reuses_existing _ _ _ _ _ _ rfl rfl

/-! ## C5 — error-frame handling -/

/-- C5 (counterexample): an error frame that is also marked finished takes
the terminal branch, which adopts the frame's `conversation_id` (bumping
the conversation-list key and persisting it) and updates the current agent
before surfacing the error — so state other than the error message and the
Pending Exchange is modified, refuting "no other state is modified". -/
theorem error_frame_modifies_other_state :
    (handleStreamingResponse none errorTerminalFrame
        (initialDashState none)).conversationId = some "c1" ∧
    (initialDashState none).conversationId = none ∧
    (handleStreamingResponse none errorTerminalFrame
        (initialDashState none)).currentAgent = "A" ∧
    (handleStreamingResponse none errorTerminalFrame
        (initialDashState none)).conversationListKey = 1 := by
  refine ⟨by decide, rfl, by decide, by decide⟩

/-- C5 (amended): for an error frame that is *not* terminal (`isFinished`
false and no `completion` type marker), processing makes exactly these
changes and no others: one error message (content `系统异常: <message>`,
assistant-typed, agent `current_agent || 'System'`) is appended and the
Pending Exchange (streaming text and loading flag) is cleared.  A terminal
error frame additionally runs the conversation-id adoption and
current-agent update first, as the counterexample shows. -/
theorem error_frame_partial_exact (cc : Option String) (c : StreamContent)
    (s : DashState) (he : c.is_error = true) (hfin : c.is_finished = false)
    (hty : c.ctype ≠ some "completion") :
    handleStreamingResponse cc c s =
      { s with messages := s.messages ++ [errMsg c.toChatResp]
               streamingResponse := ""
               isLoading := false } := by
  unfold handleStreamingResponse
  rw [if_neg (by simp [hfin, hty]), if_pos (by simp [he])]

/-- C5 (witness): the amended theorem applied to a concrete mid-stream
error frame. -/
theorem error_frame_partial_exact_witness :
    handleStreamingResponse none errorPartialFrame userHiState =
      { userHiState with
          messages := userHiState.messages ++ [errMsg errorPartialFrame.toChatResp]
          streamingResponse := ""
          isLoading := false } :=
  error_frame_partial_exact none errorPartialFrame userHiState rfl rfl
    (by decide)

/-! ## C4 — late partial frames -/

/-- C4 (counterexample): a partial frame delivered after the terminal frame
of the exchange is not dropped — it overwrites the pending streaming text
(cleared to `""` by the terminal frame) with its `raw_response`, an
observable state change. -/
theorem late_partial_changes_state :
    (handleStreamingResponse none lateFramePartial
        (handleStreamingResponse none helloTerminalFrame
          (initialDashState none))).streamingResponse = "abc" ∧
    (handleStreamingResponse none helloTerminalFrame
        (initialDashState none)).streamingResponse = "" ∧
    handleStreamingResponse none lateFramePartial
        (handleStreamingResponse none helloTerminalFrame
          (initialDashState none)) ≠
      handleStreamingResponse none helloTerminalFrame
        (initialDashState none) := by
  refine ⟨by decide, by decide, by decide⟩

/-- C4 (amended): the handlers keep no notion of a closed exchange, so a
late partial frame is processed like any other partial frame: it never
changes the Committed Message list (when `isError` is false), but it may
overwrite the pending streaming text, the current responder, the
side-channel state and (when no identifier was captured at handler
registration) the conversation identifier. -/
theorem late_partial_preserves_committed (cc : Option String)
    (c : StreamContent) (s : DashState) (hfin : c.is_finished = false)
    (hty : c.ctype ≠ some "completion") (herr : c.is_error = false) :
    (handleStreamingResponse cc c s).messages = s.messages :=
  partial_preserves_messages cc c s hfin hty herr

/-- C4 (witness): the amended theorem applied to the concrete late frame
after the concrete terminal frame. -/
theorem late_partial_preserves_committed_witness :
    (handleStreamingResponse none lateFramePartial
        (handleStreamingResponse none helloTerminalFrame
          (initialDashState none))).messages =
      (handleStreamingResponse none helloTerminalFrame
        (initialDashState none)).messages :=
  late_partial_preserves_committed none lateFramePartial _ rfl (by decide)
    rfl

/-! ## C7 — conversation-id adoption guard -/

/-- C7 (counterexample): the adoption guard `content.conversation_id &&
!conversationId` reads the `conversationId` render value captured when the
handlers were registered (the effect's deps are `[user, token]`), not the
live state.  With a null captured value, a frame carrying `"c2"` overwrites
the already-known identifier `"c1"` — the identifier is not write-once. -/
theorem stale_guard_overwrites_conversation_id :
    (handleStreamingResponse none overwriteFrame knownIdState).conversationId
      = some "c2" ∧
    knownIdState.conversationId = some "c1" := by
  refine ⟨by decide, rfl⟩

/-- C7 (amended): the adoption guard compares against the identifier
captured at handler registration, not the current one.  When the captured
identifier is non-null, no response frame — streamed or final — ever
changes the active identifier; when it is null, a genuine partial frame
(`isFinished` false, no `completion` type marker, `isError` false) carrying
a `conversationId` overwrites the live identifier, whatever its current
value.  (A non-terminal error frame is outside this rule: it returns from
the error branch before the adoption block and so does not overwrite.) -/
theorem conversation_id_adoption_guard (x v : String) (c₂ c : StreamContent)
    (r : ChatResp) (s : DashState) (hfin : c.is_finished = false)
    (hty : c.ctype ≠ some "completion") (herr : c.is_error = false)
    (hcid : c.conversation_id = some v) :
    (handleStreamingResponse (some x) c₂ s).conversationId =
        s.conversationId ∧
    (handleChatResponse (some x) r s).conversationId = s.conversationId ∧
    (handleStreamingResponse none c s).conversationId = some v := by
  refine ⟨handleStreamingResponse_conv_of_cc_some x c₂ s,
    handleChatResponse_conv_of_cc_some x r s, ?_⟩
  unfold handleStreamingResponse
  rw [if_neg (by simp [hfin, hty]), if_neg (by simp [herr])]
  simp [hcid, adoptConversationId_none_some]

/-- C7 (witness): the amended theorem at a concrete overwriting frame and a
concrete state with a known identifier. -/
theorem conversation_id_adoption_guard_witness :
    (handleStreamingResponse (some "c1") overwriteFrame
        knownIdState).conversationId = knownIdState.conversationId ∧
    (handleChatResponse (some "c1") trivialChatResp
        knownIdState).conversationId = knownIdState.conversationId ∧
    (handleStreamingResponse none overwriteFrame
        knownIdState).conversationId = some "c2" :=
  conversation_id_adoption_guard "c1" "c2" overwriteFrame overwriteFrame
    trivialChatResp knownIdState rfl (by decide) rfl rfl

/-! ## C1 — stream idempotence -/

/-- C1 (counterexample): processing zero partial frames followed by a
terminal frame whose `finalMessages` carries two entries (the echoed user
message `"hi"` and the assistant answer `"Hello!"`) onto a list already
containing the user message commits only the assistant entry: the list
grows by one message, not one per entry — "exactly one message per entry,
never fewer" fails. -/
theorem final_messages_user_entries_dropped :
    (processFrames none [echoTerminalFrame] userHiState).messages =
      [{ content := "hi", mtype := .user, agent := "user" },
       { content := "Hello!", mtype := .ai, agent := "A" }] ∧
    (processFrames none [echoTerminalFrame] userHiState).messages.length ≠
      userHiState.messages.length +
        ((echoTerminalFrame.messages).getD []).length := by
  refine ⟨by decide, by decide⟩

/-- C1 (amended): for any sequence of genuine partial frames followed by
one terminal frame, the Committed Message list after processing is
`mergeNewMessages` applied to the prior list and the terminal frame's
committed `messages` entries (those of `final_response` when present,
otherwise the frame's own): when the response contains assistant-typed
entries and the last committed message is user-typed, exactly the
assistant-typed entries are appended (user-typed entries are dropped);
otherwise the whole list is replaced by the mapped entries.  The result is
independent of how many partial frames preceded the terminal frame. -/
theorem stream_commit_merge (cc : Option String)
    (parts : List StreamContent) (t : StreamContent)
    (entries : List RespMsg) (s : DashState)
    (hp : ∀ p ∈ parts,
      p.is_finished = false ∧ p.is_error = false ∧ p.ctype ≠ some "completion")
    (ht : t.ctype = some "completion" ∨ t.is_finished = true)
    (he : (t.final_response.getD t.toChatResp).is_error = false)
    (hm : (t.final_response.getD t.toChatResp).messages = some entries) :
    (processFrames cc (parts ++ [t]) s).messages =
      mergeNewMessages s.messages entries := by
  induction parts generalizing s with
  | nil =>
    simpa [processFrames] using
      terminal_commit_messages cc t s entries ht he hm
  | cons p ps ih =>
    have hp0 := hp p (List.mem_cons_self p ps)
    have hps : ∀ q ∈ ps,
        q.is_finished = false ∧ q.is_error = false ∧
          q.ctype ≠ some "completion" :=
      fun q hq => hp q (List.mem_cons_of_mem p hq)
    have hstep :
        processFrames cc ((p :: ps) ++ [t]) s =
          processFrames cc (ps ++ [t]) (handleStreamingResponse cc p s) := rfl
    rw [hstep, ih (handleStreamingResponse cc p s) hps,
      partial_preserves_messages cc p s hp0.1 hp0.2.2 hp0.2.1]

/-- C1 (witness): §8's scenario — one partial then the terminal frame with
one assistant entry, starting from the committed user message. -/
theorem stream_commit_merge_witness :
    (processFrames none ([helloPartialFrame] ++ [helloTerminalFrame])
        userHiState).messages =
      mergeNewMessages userHiState.messages
        [{ content := "Hello!", agent := "A" }] :=
  stream_commit_merge none [helloPartialFrame] helloTerminalFrame
    [{ content := "Hello!", agent := "A" }] userHiState (by decide)
    (Or.inr rfl) rfl rfl

/-! ## C6 — no abandonment timeout on the submit path -/

/-- C6 (counterexample): 30 seconds after a submission with no terminal
frame, the Pending Exchange is *not* flushed as an error and *not* cleared:
the loading flag is still set and the Committed Message list still holds
only the user's own message — `handleSendMessage` arms no timer of any
kind. -/
theorem no_timeout_flush_after_30s :
    (elapseWithoutFrames 30000
        (handleSendMessage "hello" (initialDashState none)).1).isLoading =
      true ∧
    (elapseWithoutFrames 30000
        (handleSendMessage "hello" (initialDashState none)).1).messages =
      [{ content := "hello", mtype := .user, agent := "user" }] := by
  refine ⟨by decide, by decide⟩

/-- C6 (amended): the Dashboard submit path has no abandonment timeout: an
accepted submission sets the loading flag, commits the user message, sends
exactly one `chat` frame, and then — no matter how much time passes with no
terminal frame — nothing changes: the Pending Exchange persists instead of
being flushed, and no cancellation (or any other) message is sent to the
remote side.  The only 30-second timeout in the client is
`wsApiSendMessageTimerDelay` in the deprecated `WebSocketAPI.sendMessage`
path, unreachable from the Dashboard, and it too sends nothing remotely. -/
theorem no_abandonment_timeout (content : String) (s : DashState) (t : Nat)
    (hne : ¬ jsTrim content = "") (hld : s.isLoading = false) :
    elapseWithoutFrames t (handleSendMessage content s).1 =
      (handleSendMessage content s).1 ∧
    (handleSendMessage content s).1.isLoading = true ∧
    (handleSendMessage content s).1.messages =
      s.messages ++ [{ content := jsTrim content, mtype := .user, agent := "user" }] ∧
    (handleSendMessage content s).2 =
      some (buildChatMessage s.wsConvId (jsTrim content)) ∧
    wsApiSendMessageTimerDelay = 30000 := by
  refine ⟨rfl, ?_, ?_, ?_, rfl⟩ <;>
    simp [handleSendMessage, hne, hld]

/-- C6 (witness): the amended theorem at a concrete submission. -/
theorem no_abandonment_timeout_witness :
    elapseWithoutFrames 30000
        (handleSendMessage "hello" (initialDashState none)).1 =
      (handleSendMessage "hello" (initialDashState none)).1 ∧
    (handleSendMessage "hello" (initialDashState none)).1.isLoading = true ∧
    (handleSendMessage "hello" (initialDashState none)).1.messages =
      (initialDashState none).messages ++
        [{ content := jsTrim "hello", mtype := .user, agent := "user" }] ∧
    (handleSendMessage "hello" (initialDashState none)).2 =
      some (buildChatMessage (initialDashState none).wsConvId (jsTrim "hello")) ∧
    wsApiSendMessageTimerDelay = 30000 :=
  no_abandonment_timeout "hello" (initialDashState none) 30000 (by decide)
    rfl

/-! ## C8 — "new conversation" isolation -/

/-- C8 (confirmed): selecting "new conversation" clears the Committed
Message list, the Pending Exchange (streaming text and loading flag), the
in-memory identifier, the service's tracked identifier and the persisted
identifier; and a chat frame built from the cleared service identifier
carries no `conversation_id` — it stays absent until the adoption path
stores a remote-assigned identifier again. -/
theorem new_conversation_switch_isolation (s : DashState) (content : String) :
    (handleSelectConversationNew s).messages = [] ∧
    (handleSelectConversationNew s).streamingResponse = "" ∧
    (handleSelectConversationNew s).isLoading = false ∧
    (handleSelectConversationNew s).conversationId = none ∧
    (handleSelectConversationNew s).wsConvId = none ∧
    (handleSelectConversationNew s).storage = none ∧
    (buildChatMessage (handleSelectConversationNew s).wsConvId
        content).conversation_id = none :=
  ⟨rfl, rfl, rfl, rfl, rfl, rfl, rfl⟩

/-! ## C9 — session round-trip on restart -/

/-- C9 (counterexample): after persisting identifier `"X"` and remounting
from cold state, the connect address carries *no* `conversation_id` and the
service's staged identifier is unset — the WebSocket effect passes
`undefined` for the conversation id and its `if (conversationId)` guard
reads the first render's null value, so the restored identifier is never
staged; only the history fetch for `"X"` happens. -/
theorem session_restore_not_staged :
    (dashboardMount (some "X") (some []) "u1" "alice" "tok").connectConvParam
      = none ∧
    (dashboardMount (some "X") (some []) "u1" "alice" "tok").ws.conversationId
      = none ∧
    (dashboardMount (some "X") (some []) "u1" "alice" "tok").historyFetches
      = ["X"] := by
  refine ⟨rfl, rfl, rfl⟩

/-- C9 (amended): persisting `X` and restarting from cold state triggers
exactly one history fetch for `X` and restores `X` into the React state
(kept when the fetch succeeds), but the identifier is *not* staged on the
WebSocket service — the handlers capture a null identifier and the connect
address carries no `conversation_id`. -/
theorem session_restore_fetch_unstaged (x uid un tok : String)
    (entries : List HistEntry) :
    (dashboardMount (some x) (some entries) uid un tok).historyFetches
      = [x] ∧
    (dashboardMount (some x) (some entries) uid un tok).dash.conversationId
      = some x ∧
    (dashboardMount (some x) (some entries) uid un tok).ws.conversationId
      = none ∧
    (dashboardMount (some x) (some entries) uid un tok).connectConvParam
      = none ∧
    (dashboardMount (some x) (some entries) uid un tok).closureConv
      = none :=
  ⟨rfl, rfl, rfl, rfl, rfl⟩

end SessionProtocol
